import Mathlib

/-!
Shallow embedding of the booking / inventory / rating / visit-request core of
the VK-investment backend (src/server.js plus the SQL schema in src/db).

Database state is modelled as explicit lists standing for the four tables
pg_listings, pg_reviews, customers and visit_requests; each HTTP handler
becomes a pure function from a `DB` and its request parameters to a tagged
response together with the successor state.  JavaScript truthiness of the
handler guards is modelled explicitly (0 and "" are falsy), and SQL CHECK
constraints of the schema are modelled as failure branches of the insert.
-/

namespace Server

/-- Round a rational to 2 decimal places, as `toFixed(2)` does on the
positive averages that occur here (round half up at the 3rd decimal). -/
def round2 (q : ℚ) : ℚ := (round (q * 100) : ℤ) / 100

/-- One entry of a listing's `rooms` JSON array. -/
structure Room where
  type : String
  totalCount : ℤ
  available : ℤ
  deriving DecidableEq

/-- A row of `pg_listings` (the fields the core touches). `rooms = none`
models a NULL / non-array `rooms` column. -/
structure Listing where
  id : ℕ
  rooms : Option (List Room)
  rating : ℚ
  rating_count : ℕ
  deriving DecidableEq

/-- A row of `pg_reviews`. -/
structure Review where
  id : ℕ
  pg_id : ℕ
  user_name : String
  rating : ℤ
  deriving DecidableEq

/-- A row of `customers` (a booking). `none` models SQL NULL. -/
structure Customer where
  id : ℕ
  name : String
  email : String
  mobile : String
  pg_id : Option ℕ
  room_type : Option String
  move_in_date : Option String
  status : String
  booking_id : String
  amount : ℤ
  paid_date : Option ℕ
  deriving DecidableEq

/-- A row of `visit_requests`. Timestamps are abstract naturals. -/
structure VisitRequest where
  id : ℕ
  user_email : String
  user_name : String
  pg_id : ℕ
  owner_email : String
  visit_date : String
  visit_time : String
  status : String
  updated_at : ℕ
  deriving DecidableEq

/-- The whole persistent state, with the serial-id counters. -/
structure DB where
  listings : List Listing
  reviews : List Review
  customers : List Customer
  visits : List VisitRequest
  nextReviewId : ℕ
  nextVisitId : ℕ
  nextCustomerId : ℕ
  deriving DecidableEq

/-- Outcome of `POST /api/pg/:id/review`. -/
inductive ReviewResult where
  | created201 (r : Review)
  | validationError400
  | notFound404
  | serverError500
  deriving DecidableEq

/-- Ratings of all stored reviews of a given listing
(`SELECT rating FROM pg_reviews WHERE pg_id = $1`). -/
def ratingsFor (db : DB) (pgId : ℕ) : List ℤ :=
  (db.reviews.filter (fun r => r.pg_id == pgId)).map Review.rating

/-- `AVG(rating)` over a list of ratings. -/
def meanRating (rs : List ℤ) : ℚ := (rs.sum : ℚ) / (rs.length : ℚ)

/-- `POST /api/pg/:id/review`: truthiness validation of `user_name`/`rating`,
listing-existence check, insert (subject to the schema's
`CHECK (rating >= 1 AND rating <= 5)`, whose violation the handler turns into
a 500), then recompute of the listing's `rating`/`rating_count` from all
stored reviews of that listing. -/
def addReview (db : DB) (pgId : ℕ) (userName : String) (rating : ℤ) :
    ReviewResult × DB :=
  if userName = "" ∨ rating = 0 then (ReviewResult.validationError400, db)
  else if db.listings.all (fun l => !(l.id == pgId)) then (ReviewResult.notFound404, db)
  else if rating < 1 ∨ 5 < rating then (ReviewResult.serverError500, db)
  else
    let rev : Review :=
      { id := db.nextReviewId, pg_id := pgId, user_name := userName, rating := rating }
    let reviews := db.reviews ++ [rev]
    let rs := (reviews.filter (fun r => r.pg_id == pgId)).map Review.rating
    let listings := db.listings.map (fun l =>
      if l.id = pgId then
        { l with rating := round2 (meanRating rs), rating_count := rs.length }
      else l)
    (ReviewResult.created201 rev,
      { db with reviews := reviews, listings := listings,
                nextReviewId := db.nextReviewId + 1 })

/-- The derived-rating consistency property of one listing record:
`rating_count` is the exact number of stored reviews of that listing and,
when there is at least one review, `rating` is their mean rounded to 2
decimal places. -/
def listingRatingOK (db : DB) (l : Listing) : Prop :=
  l.rating_count = (ratingsFor db l.id).length ∧
  (ratingsFor db l.id ≠ [] → l.rating = round2 (meanRating (ratingsFor db l.id)))

instance (db : DB) (l : Listing) : Decidable (listingRatingOK db l) := by
  unfold listingRatingOK; infer_instance

/-- One `addReview` request (parameters of one POST). -/
structure ReviewOp where
  pgId : ℕ
  userName : String
  rating : ℤ
  deriving DecidableEq

/-- Run a sequence of review submissions, keeping only the state. -/
def applyReviewOps (db : DB) (ops : List ReviewOp) : DB :=
  ops.foldl (fun d op => (addReview d op.pgId op.userName op.rating).2) db

/-- Outcome of `POST /api/visit-request` (the update branch answers with a
plain `res.json`, hence status 200; the insert branch with `res.status(201)`). -/
inductive VisitResponse where
  | created201 (v : VisitRequest)
  | ok200 (v : VisitRequest)
  | badRequest400
  deriving DecidableEq

/-- The `WHERE user_email = $1 AND pg_id = $2 AND status = 'pending'` filter. -/
def pendingPred (userEmail : String) (pgId : ℕ) (v : VisitRequest) : Bool :=
  v.user_email == userEmail && v.pg_id == pgId && v.status == "pending"

/-- `POST /api/visit-request`: truthiness validation of the required body
fields, then either an in-place update of the existing pending request of the
`(userEmail, pgId)` pair (new date, time and `updated_at`, answered 200) or an
insert of a fresh `pending` row (answered 201). -/
def requestVisit (db : DB) (userEmail userName : String) (pgId : ℕ)
    (ownerEmail visitDate visitTime : String) (now : ℕ) : VisitResponse × DB :=
  if userEmail = "" ∨ pgId = 0 ∨ visitDate = "" ∨ visitTime = "" then
    (VisitResponse.badRequest400, db)
  else
    match db.visits.find? (pendingPred userEmail pgId) with
    | some v0 =>
      let visits := db.visits.map (fun v =>
        if pendingPred userEmail pgId v then
          { v with visit_date := visitDate, visit_time := visitTime, updated_at := now }
        else v)
      (VisitResponse.ok200
          { v0 with visit_date := visitDate, visit_time := visitTime, updated_at := now },
        { db with visits := visits })
    | none =>
      let v : VisitRequest :=
        { id := db.nextVisitId, user_email := userEmail, user_name := userName,
          pg_id := pgId, owner_email := ownerEmail, visit_date := visitDate,
          visit_time := visitTime, status := "pending", updated_at := now }
      (VisitResponse.created201 v,
        { db with visits := db.visits ++ [v], nextVisitId := db.nextVisitId + 1 })

/-- Outcome of the approve / reject handlers. -/
inductive VisitUpdateResult where
  | ok200 (v : VisitRequest)
  | notFound404
  deriving DecidableEq

/-- `PUT /api/visit-request/:id/approve`: unconditional
`UPDATE visit_requests SET status = 'approved' WHERE id = $1`; 404 when no row
matched. -/
def approveVisit (db : DB) (id now : ℕ) : VisitUpdateResult × DB :=
  let visits := db.visits.map (fun v =>
    if v.id = id then { v with status := "approved", updated_at := now } else v)
  match visits.find? (fun v => v.id == id) with
  | some v => (VisitUpdateResult.ok200 v, { db with visits := visits })
  | none => (VisitUpdateResult.notFound404, { db with visits := visits })

/-- `PUT /api/visit-request/:id/reject`: unconditional
`UPDATE visit_requests SET status = 'rejected' WHERE id = $1`; 404 when no row
matched. -/
def rejectVisit (db : DB) (id now : ℕ) : VisitUpdateResult × DB :=
  let visits := db.visits.map (fun v =>
    if v.id = id then { v with status := "rejected", updated_at := now } else v)
  match visits.find? (fun v => v.id == id) with
  | some v => (VisitUpdateResult.ok200 v, { db with visits := visits })
  | none => (VisitUpdateResult.notFound404, { db with visits := visits })

/-- At most one `pending` visit request per `(user_email, pg_id)` pair:
no two distinct rows of the table are both pending for the same pair. -/
def pendingUnique (db : DB) : Prop :=
  db.visits.Pairwise (fun v w =>
    ¬(v.user_email = w.user_email ∧ v.pg_id = w.pg_id ∧
      v.status = "pending" ∧ w.status = "pending"))

/-- One request against the visit-request registry. -/
inductive VisitOp where
  | request (userEmail userName : String) (pgId : ℕ)
      (ownerEmail visitDate visitTime : String) (now : ℕ)
  | approve (id now : ℕ)
  | reject (id now : ℕ)
  deriving DecidableEq

/-- State reached after one visit-registry request. -/
def applyVisitOp (db : DB) : VisitOp → DB
  | VisitOp.request ue un pg oe vd vt now => (requestVisit db ue un pg oe vd vt now).2
  | VisitOp.approve id now => (approveVisit db id now).2
  | VisitOp.reject id now => (rejectVisit db id now).2

/-- Run a sequence of visit-registry requests. -/
def applyVisitOps (db : DB) (ops : List VisitOp) : DB :=
  ops.foldl applyVisitOp db

/-- Outcome of `POST /api/payment/confirm`. The only failure the handler can
produce is the catch-all 500, raised here by the customers-table foreign key
when `pg_id` references no listing. -/
inductive ConfirmResult where
  | created201 (c : Customer)
  | serverError500
  deriving DecidableEq

/-- The per-room decrement of the payment-confirm handler:
`room.type === roomType && room.available > 0` guards `available - 1`. -/
def reserveRoom (roomType : String) (r : Room) : Room :=
  if r.type = roomType ∧ 0 < r.available then { r with available := r.available - 1 }
  else r

/-- The listing-level decrement: only the listing `pgId`, and only when its
`rooms` column is a JSON array, gets its rooms rewritten. -/
def reserveInListing (pgId : ℕ) (roomType : String) (l : Listing) : Listing :=
  if l.id = pgId then
    match l.rooms with
    | some rs => { l with rooms := some (rs.map (reserveRoom roomType)) }
    | none => l
  else l

/-- `POST /api/payment/confirm`: inserts the customer row first (status
`Paid`, generated booking ref when the body carries none), then decrements
`available` of the matching room type when one with `available > 0` exists;
no inventory check ever aborts the insert. -/
def confirmBooking (db : DB) (name email mobile : String) (pgId : ℕ)
    (roomType : String) (amount : ℤ) (bookingId : Option String)
    (moveInDate : Option String) (genRef : String) (now : ℕ) :
    ConfirmResult × DB :=
  if db.listings.all (fun l => !(l.id == pgId)) then (ConfirmResult.serverError500, db)
  else
    let ref := match bookingId with
      | some b => if b = "" then genRef else b
      | none => genRef
    let c : Customer :=
      { id := db.nextCustomerId, name := name, email := email, mobile := mobile,
        pg_id := some pgId, room_type := some roomType, move_in_date := moveInDate,
        status := "Paid", booking_id := ref, amount := amount, paid_date := some now }
    (ConfirmResult.created201 c,
      { db with customers := db.customers ++ [c],
                listings := db.listings.map (reserveInListing pgId roomType),
                nextCustomerId := db.nextCustomerId + 1 })

/-- Outcome of `DELETE /api/customer/:id/cancel`. -/
inductive CancelResult where
  | success200
  | notFound404
  deriving DecidableEq

/-- The per-room increment of the cancel handler:
`(room.available || 0) + 1` on the matching type, with no clamp. -/
def releaseRoom (roomType : String) (r : Room) : Room :=
  if r.type = roomType then
    { r with available := (if r.available = 0 then 0 else r.available) + 1 }
  else r

/-- The listing-level increment, guarded like the decrement. -/
def releaseInListing (pgId : ℕ) (roomType : String) (l : Listing) : Listing :=
  if l.id = pgId then
    match l.rooms with
    | some rs => { l with rooms := some (rs.map (releaseRoom roomType)) }
    | none => l
  else l

/-- `DELETE /api/customer/:id/cancel`: 404 when the booking is absent;
otherwise restore availability (only when `pg_id` and `room_type` are truthy
and the listing's `rooms` is an array), delete the customer row, answer
success. -/
def cancelBooking (db : DB) (id : ℕ) : CancelResult × DB :=
  match db.customers.find? (fun c => c.id == id) with
  | none => (CancelResult.notFound404, db)
  | some c =>
    let listings := match c.pg_id, c.room_type with
      | some pgId, some rt =>
        if pgId = 0 ∨ rt = "" then db.listings
        else db.listings.map (releaseInListing pgId rt)
      | _, _ => db.listings
    (CancelResult.success200,
      { db with listings := listings,
                customers := db.customers.filter (fun c2 => !(c2.id == id)) })

/-- Outcome of `PUT /api/customer/:id/check-in-date`. -/
inductive MoveInResult where
  | ok200 (c : Customer)
  | badRequest400
  | notFound404
  deriving DecidableEq

/-- The row effect of `UPDATE customers SET move_in_date = $1 WHERE id = $2`:
only the matching row, and only its `move_in_date` column, changes. -/
def setMoveIn (id : ℕ) (d : String) (c : Customer) : Customer :=
  if c.id = id then { c with move_in_date := some d } else c

/-- `PUT /api/customer/:id/check-in-date`: 400 on falsy `moveInDate`,
otherwise `UPDATE customers SET move_in_date = $1 WHERE id = $2`, answering
404 when no row matched and the updated row when one did. -/
def updateMoveInDate (db : DB) (id : ℕ) (moveInDate : Option String) :
    MoveInResult × DB :=
  match moveInDate with
  | none => (MoveInResult.badRequest400, db)
  | some d =>
    if d = "" then (MoveInResult.badRequest400, db)
    else
      let customers := db.customers.map (setMoveIn id d)
      match customers.find? (fun c => c.id == id) with
      | some c => (MoveInResult.ok200 c, { db with customers := customers })
      | none => (MoveInResult.notFound404, db)

instance (db : DB) : Decidable (pendingUnique db) := by
  unfold pendingUnique; infer_instance

/-! ### Concrete states used by the evaluation, counterexample and witness
theorems -/

/-- A listing whose only room type has zero availability. -/
def exListing1 : Listing :=
  { id := 1, rooms := some [{ type := "Single", totalCount := 1, available := 0 }],
    rating := 0, rating_count := 0 }

/-- State holding just `exListing1`. -/
def exDB1 : DB :=
  { listings := [exListing1], reviews := [], customers := [], visits := [],
    nextReviewId := 1, nextVisitId := 1, nextCustomerId := 1 }

/-- A fully booked single room (`available = totalCount = 1`) together with
the booking that reserved nothing beyond it. -/
def exCust1 : Customer :=
  { id := 1, name := "A", email := "a@x", mobile := "9", pg_id := some 1,
    room_type := some "Single", move_in_date := none, status := "Paid",
    booking_id := "BK1", amount := 5000, paid_date := some 1 }

/-- The listing of `exDB2`, fully booked: `available = totalCount = 1`. -/
def exListing2 : Listing :=
  { id := 1, rooms := some [{ type := "Single", totalCount := 1, available := 1 }],
    rating := 0, rating_count := 0 }

/-- State holding `exCust1` and its listing with `available = 1`,
`totalCount = 1`. -/
def exDB2 : DB :=
  { listings := [exListing2], reviews := [], customers := [exCust1], visits := [],
    nextReviewId := 1, nextVisitId := 1, nextCustomerId := 2 }

/-- A pending visit request of user `u@x` for listing 1. -/
def exVisit1 : VisitRequest :=
  { id := 1, user_email := "u@x", user_name := "U", pg_id := 1,
    owner_email := "o@x", visit_date := "D1", visit_time := "T1",
    status := "pending", updated_at := 0 }

/-- State holding just the pending request `exVisit1`. -/
def exDB5 : DB :=
  { listings := [], reviews := [], customers := [], visits := [exVisit1],
    nextReviewId := 1, nextVisitId := 2, nextCustomerId := 1 }

/-- State holding a single already rejected visit request. -/
def exDB6 : DB :=
  { listings := [], reviews := [], customers := [],
    visits := [{ exVisit1 with status := "rejected" }],
    nextReviewId := 1, nextVisitId := 2, nextCustomerId := 1 }

/-- A booking whose `pg_id` is NULL. -/
def exCust10 : Customer :=
  { id := 1, name := "A", email := "a@x", mobile := "9", pg_id := none,
    room_type := some "Single", move_in_date := none, status := "Paid",
    booking_id := "BK1", amount := 5000, paid_date := some 1 }

/-- State holding only `exCust10` plus an unrelated listing. -/
def exDB10 : DB :=
  { listings := [{ exListing1 with id := 2 }], reviews := [],
    customers := [exCust10], visits := [],
    nextReviewId := 1, nextVisitId := 1, nextCustomerId := 2 }

/-- The review sequence of the spec scenario: ratings 4, 5, then 3. -/
def exOps3 : List ReviewOp :=
  [{ pgId := 1, userName := "A", rating := 4 },
   { pgId := 1, userName := "B", rating := 5 },
   { pgId := 1, userName := "C", rating := 3 }]

/-! ### Claim theorems -/

/-- Claim C1 (code bug evaluation): confirming a payment for room type
`Single` on a listing whose only `Single` entry has `available = 0` still
inserts the customer record, answers 201 with it, and leaves the rooms
collection unchanged — the handler has no `OutOfInventory` path at all. -/
theorem confirmBooking_books_despite_zero_availability :
    (confirmBooking exDB1 "A" "a@x" "9" 1 "Single" 5000 none none "BK1" 10).1 =
      ConfirmResult.created201
        { id := 1, name := "A", email := "a@x", mobile := "9", pg_id := some 1,
          room_type := some "Single", move_in_date := none, status := "Paid",
          booking_id := "BK1", amount := 5000, paid_date := some 10 } ∧
    (confirmBooking exDB1 "A" "a@x" "9" 1 "Single" 5000 none none "BK1" 10).2.customers.length = 1 ∧
    (confirmBooking exDB1 "A" "a@x" "9" 1 "Single" 5000 none none "BK1" 10).2.listings =
      exDB1.listings := by
  decide

/-- Claim C2 (code bug evaluation): cancelling the booking of a fully booked
single room (`available = totalCount = 1`) increments `available` to 2 with
no clamp, leaving `available > totalCount`. -/
theorem cancelBooking_release_exceeds_totalCount :
    (cancelBooking exDB2 1).1 = CancelResult.success200 ∧
    (cancelBooking exDB2 1).2.listings =
      [{ id := 1,
         rooms := some [{ type := "Single", totalCount := 1, available := 2 }],
         rating := 0, rating_count := 0 }] ∧
    (cancelBooking exDB2 1).2.customers = [] := by
  decide

/-- Claim C4 (counterexample): a review with rating 6 on an existing listing
is not answered with the 400 validation error — the handler's truthiness
check passes it, the insert trips the schema's CHECK constraint, and the
catch-all turns that into a 500; no state changes. -/
theorem addReview_out_of_range_is_500_not_400 :
    (addReview exDB1 1 "Bob" 6).1 = ReviewResult.serverError500 ∧
    (addReview exDB1 1 "Bob" 6).2 = exDB1 := by
  decide

/-- Claim C6 (counterexample): approving a visit request that is already
`rejected` flips it to `approved` — the `UPDATE ... WHERE id = $1` carries no
status guard, so `rejected` is not terminal. -/
theorem approve_flips_rejected_request :
    (approveVisit exDB6 1 5).2.visits.map VisitRequest.status = ["approved"] ∧
    exDB6.visits.map VisitRequest.status = ["rejected"] := by
  decide

/-- Claim C8 (counterexample): a valid `requestVisit` that hits an existing
pending request of the same `(userEmail, listingId)` pair answers with the
plain 200 of `res.json`, not 201. -/
theorem requestVisit_update_returns_200 :
    (requestVisit exDB5 "u@x" "U" 1 "o@x" "D2" "T2" 7).1 =
      VisitResponse.ok200
        { id := 1, user_email := "u@x", user_name := "U", pg_id := 1,
          owner_email := "o@x", visit_date := "D2", visit_time := "T2",
          status := "pending", updated_at := 7 } := by
  decide

/-- Appending one review to the table appends its rating to the rating list
of its listing and leaves other listings' rating lists unchanged. -/
theorem ratingsFor_append (db : DB) (rev : Review) (lid : ℕ) (db2 : DB)
    (hrev : db2.reviews = db.reviews ++ [rev]) :
    ratingsFor db2 lid =
      ratingsFor db lid ++ (if rev.pg_id = lid then [rev.rating] else []) := by
  unfold ratingsFor
  rw [hrev, List.filter_append]
  by_cases hpg : rev.pg_id = lid
  · rw [List.filter_cons_of_pos (by simp [hpg]), List.filter_nil]
    simp [hpg]
  · rw [List.filter_cons_of_neg (by simp [hpg]), List.filter_nil]
    simp [hpg]

/-- A review of a different listing does not change a listing's ratings. -/
theorem ratingsFor_append_ne (db db2 : DB) (rev : Review) (lid : ℕ)
    (hrev : db2.reviews = db.reviews ++ [rev]) (hne : rev.pg_id ≠ lid) :
    ratingsFor db2 lid = ratingsFor db lid := by
  rw [ratingsFor_append db rev lid db2 hrev]
  simp [hne]

/-- Rating consistency of a listing depends only on its rating list. -/
theorem listingRatingOK_of_reviews_eq (db db2 : DB) (l : Listing)
    (hrw : ratingsFor db2 l.id = ratingsFor db l.id)
    (h : listingRatingOK db l) : listingRatingOK db2 l := by
  unfold listingRatingOK at *
  rw [hrw]
  exact h

/-- One `addReview` call keeps every listing's derived rating fields
consistent with its stored reviews. -/
theorem addReview_step_ratingOK (db : DB) (pgId : ℕ) (un : String) (rt : ℤ)
    (h : ∀ l ∈ db.listings, listingRatingOK db l) :
    ∀ l ∈ (addReview db pgId un rt).2.listings,
      listingRatingOK (addReview db pgId un rt).2 l := by
  unfold addReview
  split
  · simpa using h
  split
  · simpa using h
  split
  · simpa using h
  simp only []
  intro l2 hl2
  rw [List.mem_map] at hl2
  obtain ⟨l, hl, rfl⟩ := hl2
  by_cases hid : l.id = pgId
  · rw [if_pos hid]
    unfold listingRatingOK
    constructor
    · simp [ratingsFor, hid]
    · intro _
      simp [ratingsFor, hid]
  · rw [if_neg hid]
    refine listingRatingOK_of_reviews_eq db _ l ?_ (h l hl)
    exact ratingsFor_append_ne db _ _ l.id rfl (fun hc => hid (by simpa using hc.symm))

/-- Claim C3: starting from any state whose listings have `rating` equal to
the 2-decimal rounded mean of their stored reviews and `rating_count` equal
to the exact review count, any sequence of `addReview` calls preserves this:
afterwards every listing's stored `rating` is the rounded mean of all of its
reviews and its `rating_count` is their exact number. -/
theorem addReview_rating_consistent (db : DB) (ops : List ReviewOp)
    (h : ∀ l ∈ db.listings, listingRatingOK db l) :
    ∀ l ∈ (applyReviewOps db ops).listings,
      listingRatingOK (applyReviewOps db ops) l := by
  induction ops generalizing db with
  | nil => simpa [applyReviewOps] using h
  | cons op ops ih =>
    simp only [applyReviewOps, List.foldl_cons]
    exact ih _ (addReview_step_ratingOK _ _ _ _ h)

/-- Witness for C3: the spec scenario — a fresh listing receives ratings 4,
5 and 3; afterwards `rating = 4.00` and `rating_count = 3`, as
`listingRatingOK` demands. -/
theorem addReview_rating_consistent_witness :
    (∀ l ∈ exDB1.listings, listingRatingOK exDB1 l) ∧
    ∀ l ∈ (applyReviewOps exDB1 exOps3).listings,
      listingRatingOK (applyReviewOps exDB1 exOps3) l :=
  ⟨by decide, addReview_rating_consistent exDB1 exOps3 (by decide)⟩

/-- Mapping a row transformation that keeps `user_email`, `pg_id` and can
only lose (never gain) the `pending` status preserves pending-uniqueness. -/
theorem pendingUnique_map_imp (l : List VisitRequest) (f : VisitRequest → VisitRequest)
    (hue : ∀ v, (f v).user_email = v.user_email)
    (hpg : ∀ v, (f v).pg_id = v.pg_id)
    (hst : ∀ v, (f v).status = "pending" → v.status = "pending")
    (h : l.Pairwise (fun v w =>
      ¬(v.user_email = w.user_email ∧ v.pg_id = w.pg_id ∧
        v.status = "pending" ∧ w.status = "pending"))) :
    (l.map f).Pairwise (fun v w =>
      ¬(v.user_email = w.user_email ∧ v.pg_id = w.pg_id ∧
        v.status = "pending" ∧ w.status = "pending")) := by
  rw [List.pairwise_map]
  refine h.imp ?_
  intro a b hab hc
  refine hab ⟨?_, ?_, ?_, ?_⟩
  · rw [← hue a, ← hue b]
    exact hc.1
  · rw [← hpg a, ← hpg b]
    exact hc.2.1
  · exact hst a hc.2.2.1
  · exact hst b hc.2.2.2

/-- `requestVisit` preserves pending-uniqueness: the update branch touches
only date, time and `updated_at`; the insert branch fires only when the pair
has no pending row. -/
theorem requestVisit_pendingUnique (db : DB) (ue un : String) (pg : ℕ)
    (oe vd vt : String) (now : ℕ) (h : pendingUnique db) :
    pendingUnique (requestVisit db ue un pg oe vd vt now).2 := by
  unfold requestVisit
  split
  · exact h
  split
  · unfold pendingUnique
    simp only []
    exact pendingUnique_map_imp _ _ (fun v => by split <;> rfl) (fun v => by split <;> rfl)
      (fun v => by split <;> exact fun hv => hv) h
  next hfind =>
    unfold pendingUnique
    simp only []
    rw [List.pairwise_append]
    refine ⟨h, by simp, ?_⟩
    intro a ha b hb
    rw [List.mem_singleton] at hb
    subst hb
    intro hc
    have hnp := List.find?_eq_none.mp hfind a ha
    apply hnp
    unfold pendingPred
    have h1 : a.user_email = ue := hc.1
    have h2 : a.pg_id = pg := hc.2.1
    have h3 : a.status = "pending" := hc.2.2.1
    simp [h1, h2, h3]

/-- Approval preserves pending-uniqueness (it can only remove a pending). -/
theorem approveVisit_pendingUnique (db : DB) (id now : ℕ) (h : pendingUnique db) :
    pendingUnique (approveVisit db id now).2 := by
  unfold approveVisit
  simp only []
  split <;>
  · unfold pendingUnique
    simp only []
    refine pendingUnique_map_imp _ _ (fun v => by split <;> rfl) (fun v => by split <;> rfl)
      (fun v => ?_) h
    split
    · intro hv
      simp at hv
    · exact fun hv => hv

/-- Rejection preserves pending-uniqueness (it can only remove a pending). -/
theorem rejectVisit_pendingUnique (db : DB) (id now : ℕ) (h : pendingUnique db) :
    pendingUnique (rejectVisit db id now).2 := by
  unfold rejectVisit
  simp only []
  split <;>
  · unfold pendingUnique
    simp only []
    refine pendingUnique_map_imp _ _ (fun v => by split <;> rfl) (fun v => by split <;> rfl)
      (fun v => ?_) h
    split
    · intro hv
      simp at hv
    · exact fun hv => hv

/-- Any single registry request preserves pending-uniqueness. -/
theorem applyVisitOp_pendingUnique (db : DB) (op : VisitOp) (h : pendingUnique db) :
    pendingUnique (applyVisitOp db op) := by
  cases op with
  | request ue un pg oe vd vt now => exact requestVisit_pendingUnique db ue un pg oe vd vt now h
  | approve id now => exact approveVisit_pendingUnique db id now h
  | reject id now => exact rejectVisit_pendingUnique db id now h

/-- Any sequence of registry requests preserves pending-uniqueness. -/
theorem applyVisitOps_pendingUnique (ops : List VisitOp) :
    ∀ db : DB, pendingUnique db → pendingUnique (applyVisitOps db ops) := by
  induction ops with
  | nil =>
    intro db h
    simpa [applyVisitOps] using h
  | cons op ops ih =>
    intro db h
    simp only [applyVisitOps, List.foldl_cons]
    exact ih _ (applyVisitOp_pendingUnique _ _ h)

/-- Claim C5: starting from a state with at most one pending visit request
per `(userEmail, listingId)` pair, any sequence of requestVisit / approve /
reject calls keeps it so; and a valid `requestVisit` that finds an existing
pending request for its pair updates the pending rows of that pair in place
(new `visit_date`, `visit_time`, `updated_at`) and inserts no new row. -/
theorem visit_pending_unique_invariant (db : DB) (ops : List VisitOp)
    (h : pendingUnique db) :
    pendingUnique (applyVisitOps db ops) ∧
    (∀ (ue un : String) (pg : ℕ) (oe vd vt : String) (now : ℕ) (v0 : VisitRequest),
      db.visits.find? (pendingPred ue pg) = some v0 →
      ¬(ue = "" ∨ pg = 0 ∨ vd = "" ∨ vt = "") →
      (requestVisit db ue un pg oe vd vt now).2.visits.length = db.visits.length ∧
      (requestVisit db ue un pg oe vd vt now).2.visits = db.visits.map (fun v =>
        if pendingPred ue pg v then
          { v with visit_date := vd, visit_time := vt, updated_at := now }
        else v)) := by
  constructor
  · exact applyVisitOps_pendingUnique ops db h
  · intro ue un pg oe vd vt now v0 hfind hval
    unfold requestVisit
    rw [if_neg hval, hfind]
    exact ⟨by simp, rfl⟩

/-- A mixed workload on the registry: a duplicate request by the same user,
a request by another user, an approval, and a renewed request. -/
def exVisitOps : List VisitOp :=
  [VisitOp.request "u@x" "U" 1 "o@x" "D2" "T2" 7,
   VisitOp.request "w@x" "W" 1 "o@x" "D3" "T3" 8,
   VisitOp.approve 1 9,
   VisitOp.request "u@x" "U" 1 "o@x" "D4" "T4" 10]

/-- Witness for C5 at a concrete state and workload. -/
theorem visit_pending_unique_invariant_witness :
    pendingUnique exDB5 ∧ pendingUnique (applyVisitOps exDB5 exVisitOps) :=
  ⟨by decide, (visit_pending_unique_invariant exDB5 exVisitOps (by decide)).1⟩

/-- Claim C6 (amended): `requestVisit` never changes the status of any
existing request (so approved / rejected requests are terminal with respect
to it), and `approveVisit` / `rejectVisit` either leave a row untouched or
set its status to `approved` / `rejected` respectively — unconditionally on
the prior status, which is why an approve can overturn a rejected request
(see the counterexample) and full terminality fails. -/
theorem visit_status_change_contract (db : DB) :
    (∀ (ue un : String) (pg : ℕ) (oe vd vt : String) (now i : ℕ),
      i < db.visits.length →
      ((requestVisit db ue un pg oe vd vt now).2.visits[i]?).map VisitRequest.status =
        (db.visits[i]?).map VisitRequest.status) ∧
    (∀ (id now : ℕ) (v : VisitRequest), v ∈ (approveVisit db id now).2.visits →
      v.status = "approved" ∨ v ∈ db.visits) ∧
    (∀ (id now : ℕ) (v : VisitRequest), v ∈ (rejectVisit db id now).2.visits →
      v.status = "rejected" ∨ v ∈ db.visits) := by
  refine ⟨?_, ?_, ?_⟩
  · intro ue un pg oe vd vt now i hi
    unfold requestVisit
    split
    · rfl
    split
    · simp only []
      rw [List.getElem?_map, Option.map_map]
      cases hx : db.visits[i]? with
      | none => rfl
      | some a =>
        simp only [Option.map, Function.comp]
        split <;> rfl
    · rw [List.getElem?_append, if_pos hi]
  · intro id now v hv
    unfold approveVisit at hv
    simp only [] at hv
    have hv2 : v ∈ (db.visits.map (fun w =>
        if w.id = id then { w with status := "approved", updated_at := now } else w)) := by
      revert hv
      split <;> exact fun hv => hv
    rw [List.mem_map] at hv2
    obtain ⟨w, hw, rfl⟩ := hv2
    by_cases hid : w.id = id
    · left
      rw [if_pos hid]
    · right
      rw [if_neg hid]
      exact hw
  · intro id now v hv
    unfold rejectVisit at hv
    simp only [] at hv
    have hv2 : v ∈ (db.visits.map (fun w =>
        if w.id = id then { w with status := "rejected", updated_at := now } else w)) := by
      revert hv
      split <;> exact fun hv => hv
    rw [List.mem_map] at hv2
    obtain ⟨w, hw, rfl⟩ := hv2
    by_cases hid : w.id = id
    · left
      rw [if_pos hid]
    · right
      rw [if_neg hid]
      exact hw

/-- Witness for C6 at a concrete state. -/
theorem visit_status_change_contract_witness :
    0 < exDB6.visits.length ∧
    ((requestVisit exDB6 "a@b" "A" 2 "o" "D" "T" 9).2.visits[0]?).map VisitRequest.status =
      (exDB6.visits[0]?).map VisitRequest.status :=
  ⟨by decide, (visit_status_change_contract exDB6).1 "a@b" "A" 2 "o" "D" "T" 9 0 (by decide)⟩


/-- Claim C7: cancelling an absent booking answers `NotFound` and changes
nothing; cancelling an existing booking answers success, deletes exactly the
rows with that booking id, leaves reviews and visits untouched, and — when
the booking carries a truthy `pg_id` and `room_type` — rewrites the listings
through `releaseInListing`, which increments `available` of each room of the
matching type by exactly 1 and leaves all other rooms unchanged. -/
theorem cancelBooking_contract (db : DB) (id : ℕ) :
    (db.customers.find? (fun c2 => c2.id == id) = none →
      cancelBooking db id = (CancelResult.notFound404, db)) ∧
    (∀ c : Customer, db.customers.find? (fun c2 => c2.id == id) = some c →
      (cancelBooking db id).1 = CancelResult.success200 ∧
      (cancelBooking db id).2.customers = db.customers.filter (fun c2 => !(c2.id == id)) ∧
      (cancelBooking db id).2.reviews = db.reviews ∧
      (cancelBooking db id).2.visits = db.visits ∧
      (∀ (pgId : ℕ) (rt : String), c.pg_id = some pgId → c.room_type = some rt →
        ¬(pgId = 0 ∨ rt = "") →
        (cancelBooking db id).2.listings = db.listings.map (releaseInListing pgId rt))) ∧
    (∀ (rt : String) (r : Room), r.type = rt → (releaseRoom rt r).available = r.available + 1) ∧
    (∀ (rt : String) (r : Room), r.type ≠ rt → releaseRoom rt r = r) := by
  refine ⟨?_, ?_, ?_, ?_⟩
  · intro hfind
    unfold cancelBooking
    rw [hfind]
  · intro c hfind
    unfold cancelBooking
    rw [hfind]
    refine ⟨rfl, rfl, rfl, rfl, ?_⟩
    intro pgId rt hpg hrt hval
    simp only []
    rw [hpg, hrt]
    simp only []
    rw [if_neg hval]
  · intro rt r hr
    unfold releaseRoom
    rw [if_pos hr]
    by_cases h0 : r.available = 0
    · simp [h0]
    · simp [h0]
  · intro rt r hr
    unfold releaseRoom
    rw [if_neg hr]

/-- Witness for C7 on the concrete fully-booked state. -/
theorem cancelBooking_contract_witness :
    (cancelBooking exDB2 1).2.listings = exDB2.listings.map (releaseInListing 1 "Single") :=
  ((cancelBooking_contract exDB2 1).2.1 exCust1 (by decide)).2.2.2.2 1 "Single" rfl rfl (by decide)

/-- Claim C8 (amended): a valid `requestVisit` answers 201 with the freshly
inserted pending record when no pending request of the pair exists, but
answers 200 (plain `res.json`) with the updated record when it updates an
existing pending request in place. -/
theorem requestVisit_response_contract (db : DB) (ue un : String) (pg : ℕ)
    (oe vd vt : String) (now : ℕ)
    (hval : ¬(ue = "" ∨ pg = 0 ∨ vd = "" ∨ vt = "")) :
    (db.visits.find? (pendingPred ue pg) = none →
      (requestVisit db ue un pg oe vd vt now).1 = VisitResponse.created201
        { id := db.nextVisitId, user_email := ue, user_name := un, pg_id := pg,
          owner_email := oe, visit_date := vd, visit_time := vt,
          status := "pending", updated_at := now }) ∧
    (∀ v0 : VisitRequest, db.visits.find? (pendingPred ue pg) = some v0 →
      (requestVisit db ue un pg oe vd vt now).1 = VisitResponse.ok200
        { v0 with visit_date := vd, visit_time := vt, updated_at := now }) := by
  constructor
  · intro hfind
    unfold requestVisit
    rw [if_neg hval, hfind]
  · intro v0 hfind
    unfold requestVisit
    rw [if_neg hval, hfind]

/-- Witness for C8 on the concrete pending-request state. -/
theorem requestVisit_response_contract_witness :
    (requestVisit exDB5 "u@x" "U" 1 "o@x" "D2" "T2" 7).1 =
      VisitResponse.ok200
        { exVisit1 with visit_date := "D2", visit_time := "T2", updated_at := 7 } :=
  (requestVisit_response_contract exDB5 "u@x" "U" 1 "o@x" "D2" "T2" 7
    (by decide)).2 exVisit1 (by decide)


/-- Reduction of `updateMoveInDate` at a present date. -/
theorem updateMoveInDate_some_eq (db : DB) (id : ℕ) (d : String) :
    updateMoveInDate db id (some d) =
      (if d = "" then (MoveInResult.badRequest400, db)
       else
         match (db.customers.map (setMoveIn id d)).find? (fun c => c.id == id) with
         | some c => (MoveInResult.ok200 c,
             { db with customers := db.customers.map (setMoveIn id d) })
         | none => (MoveInResult.notFound404, db)) := rfl

/-- Claim C9: a missing date answers 400 with no state change; an absent
booking answers 404 with no state change; a present date touches neither
listings (inventory) nor reviews nor visits, rewrites customers only through
`setMoveIn`, and `setMoveIn` changes nothing but the `move_in_date` column
of the addressed row. -/
theorem updateMoveInDate_contract (db : DB) (id : ℕ) (d : String) (hd : d ≠ "") :
    updateMoveInDate db id none = (MoveInResult.badRequest400, db) ∧
    (db.customers.find? (fun c => c.id == id) = none →
      updateMoveInDate db id (some d) = (MoveInResult.notFound404, db)) ∧
    ((updateMoveInDate db id (some d)).2.listings = db.listings ∧
     (updateMoveInDate db id (some d)).2.reviews = db.reviews ∧
     (updateMoveInDate db id (some d)).2.visits = db.visits) ∧
    (∀ c0 : Customer, db.customers.find? (fun c => c.id == id) = some c0 →
      (updateMoveInDate db id (some d)).1 =
        MoveInResult.ok200 { c0 with move_in_date := some d } ∧
      (updateMoveInDate db id (some d)).2.customers =
        db.customers.map (setMoveIn id d)) ∧
    (∀ c : Customer, c.id ≠ id → setMoveIn id d c = c) ∧
    (∀ c : Customer, (setMoveIn id d c).id = c.id ∧ (setMoveIn id d c).name = c.name ∧
      (setMoveIn id d c).email = c.email ∧ (setMoveIn id d c).mobile = c.mobile ∧
      (setMoveIn id d c).pg_id = c.pg_id ∧ (setMoveIn id d c).room_type = c.room_type ∧
      (setMoveIn id d c).status = c.status ∧ (setMoveIn id d c).booking_id = c.booking_id ∧
      (setMoveIn id d c).amount = c.amount ∧ (setMoveIn id d c).paid_date = c.paid_date ∧
      (c.id = id → (setMoveIn id d c).move_in_date = some d)) := by
  have hcomp : ((fun c : Customer => c.id == id) ∘ setMoveIn id d) =
      (fun c : Customer => c.id == id) := by
    funext c
    show ((setMoveIn id d c).id == id) = (c.id == id)
    unfold setMoveIn
    split <;> rfl
  have hfm : (db.customers.map (setMoveIn id d)).find? (fun c => c.id == id) =
      (db.customers.find? (fun c => c.id == id)).map (setMoveIn id d) := by
    rw [List.find?_map, hcomp]
  refine ⟨rfl, ?_, ?_, ?_, ?_, ?_⟩
  · intro hnone
    rw [updateMoveInDate_some_eq, if_neg hd, hfm, hnone]
    rfl
  · rw [updateMoveInDate_some_eq, if_neg hd]
    split <;> exact ⟨rfl, rfl, rfl⟩
  · intro c0 hsome
    have hid : c0.id = id := by simpa using List.find?_some hsome
    rw [updateMoveInDate_some_eq, if_neg hd, hfm, hsome]
    simp only [Option.map]
    constructor
    · show MoveInResult.ok200 (setMoveIn id d c0) = _
      unfold setMoveIn
      rw [if_pos hid]
    · trivial
  · intro c hc
    unfold setMoveIn
    rw [if_neg hc]
  · intro c
    by_cases hc : c.id = id <;> simp [setMoveIn, hc]

/-- Witness for C9 on the concrete booking state. -/
theorem updateMoveInDate_contract_witness :
    (updateMoveInDate exDB2 1 (some "2025-01-05")).1 =
      MoveInResult.ok200 { exCust1 with move_in_date := some "2025-01-05" } :=
  ((updateMoveInDate_contract exDB2 1 "2025-01-05" (by decide)).2.2.2.1 exCust1 (by decide)).1

/-- Claim C10: cancelling a booking whose `pg_id` or `room_type` is NULL,
or whose referenced listing is absent or carries no rooms data, still
deletes the booking and answers success while the listings (inventory) stay
exactly as they were — the release step is silently skipped. -/
theorem cancelBooking_null_guard_contract (db : DB) (id : ℕ) (c : Customer)
    (hc : db.customers.find? (fun c2 => c2.id == id) = some c)
    (hnull : c.pg_id = none ∨ c.room_type = none ∨
      (∃ pgId : ℕ, c.pg_id = some pgId ∧
        ∀ l ∈ db.listings, l.id = pgId → l.rooms = none)) :
    (cancelBooking db id).1 = CancelResult.success200 ∧
    (cancelBooking db id).2.customers = db.customers.filter (fun c2 => !(c2.id == id)) ∧
    (cancelBooking db id).2.listings = db.listings := by
  unfold cancelBooking
  rw [hc]
  refine ⟨rfl, rfl, ?_⟩
  simp only []
  rcases hnull with h1 | h2 | ⟨pgId, hpg, hrooms⟩
  · rw [h1]
  · rw [h2]
    cases c.pg_id <;> rfl
  · rw [hpg]
    cases hrt : c.room_type with
    | none => rfl
    | some rt =>
      simp only []
      split
      · rfl
      · have hall : ∀ l ∈ db.listings, releaseInListing pgId rt l = l := by
          intro l hl
          unfold releaseInListing
          by_cases hlid : l.id = pgId
          · rw [if_pos hlid, hrooms l hl hlid]
          · rw [if_neg hlid]
        rw [List.map_congr_left hall, List.map_id']

/-- Witness for C10 on the concrete NULL-`pg_id` booking. -/
theorem cancelBooking_null_guard_contract_witness :
    (cancelBooking exDB10 1).1 = CancelResult.success200 ∧
    (cancelBooking exDB10 1).2.customers =
      exDB10.customers.filter (fun c2 => !(c2.id == 1)) ∧
    (cancelBooking exDB10 1).2.listings = exDB10.listings :=
  cancelBooking_null_guard_contract exDB10 1 exCust10 (by decide) (Or.inl rfl)

/-- Claim C4 (amended): for a missing userName or a rating outside 1..5 no
review row is persisted and the whole state is unchanged; a missing userName
or falsy rating 0 is answered with the 400 validation error, while a nonzero
out-of-range rating on an existing listing is answered with the 500 raised
by the reviews table CHECK constraint — not with a validation error. -/
theorem addReview_invalid_input_contract (db : DB) (pgId : ℕ) (un : String) (rt : ℤ)
    (h : un = "" ∨ rt < 1 ∨ 5 < rt) :
    (addReview db pgId un rt).2 = db ∧
    ((addReview db pgId un rt).1 = ReviewResult.validationError400 ∨
     (addReview db pgId un rt).1 = ReviewResult.notFound404 ∨
     (addReview db pgId un rt).1 = ReviewResult.serverError500) ∧
    (un = "" ∨ rt = 0 → (addReview db pgId un rt).1 = ReviewResult.validationError400) ∧
    (¬(un = "" ∨ rt = 0) → (db.listings.all (fun l => !(l.id == pgId))) = false →
      (rt < 1 ∨ 5 < rt) → (addReview db pgId un rt).1 = ReviewResult.serverError500) := by
  by_cases hc1 : un = "" ∨ rt = 0
  · unfold addReview
    rw [if_pos hc1]
    exact ⟨rfl, Or.inl rfl, fun _ => rfl, fun hx => absurd hc1 hx⟩
  · by_cases hc2 : (db.listings.all (fun l => !(l.id == pgId))) = true
    · unfold addReview
      rw [if_neg hc1, if_pos hc2]
      refine ⟨rfl, Or.inr (Or.inl rfl), fun hx => absurd hx hc1, ?_⟩
      intro _ hex _
      rw [hex] at hc2
      exact absurd hc2 (by decide)
    · have hc3 : rt < 1 ∨ 5 < rt := by
        rcases h with h | h | h
        · exact absurd (Or.inl h) hc1
        · exact Or.inl h
        · exact Or.inr h
      unfold addReview
      rw [if_neg hc1, if_neg hc2, if_pos hc3]
      exact ⟨rfl, Or.inr (Or.inr rfl), fun hx => absurd hx hc1, fun _ _ _ => rfl⟩

/-- Witness for C4 (amended) at rating 6. -/
theorem addReview_invalid_input_contract_witness :
    (addReview exDB1 1 "Bob" 6).2 = exDB1 :=
  (addReview_invalid_input_contract exDB1 1 "Bob" 6 (Or.inr (Or.inr (by decide)))).1

end Server
